import Mathlib

/-
Shallow embedding of src/asearch.py (the "ASearch" Amazon scraper).

The markup model: a BeautifulSoup document is a forest of element trees.
An element carries its tag name, its attribute list, its class-token list
(BeautifulSoup exposes the `class` attribute as a token list), the text it
directly owns, and its child elements.  `find_all` enumerates descendants
in document (preorder) order; `find` is the first hit; `.text` concatenates
all text in the subtree.  The child forest is a dedicated inductive
(`ElemL`) mutual with `Elem`, so that every traversal is structural and
computable by the kernel.

Python string primitives (`strip`, `split`, `in`, `replace`, `int`,
`float`) are modelled by structural functions over the character list of a
string, for the same reason.
-/

namespace ASearch

mutual
inductive Elem : Type where
  | mk : String → List (String × String) → List String → String → ElemL → Elem
inductive ElemL : Type where
  | nil : ElemL
  | cons : Elem → ElemL → ElemL
end

/-- Build a child forest from a plain list. -/
def elems : List Elem → ElemL
  | [] => ElemL.nil
  | e :: es => ElemL.cons e (elems es)

def Elem.tag : Elem → String
  | .mk t _ _ _ _ => t

def Elem.attrs : Elem → List (String × String)
  | .mk _ a _ _ _ => a

def Elem.classTokens : Elem → List String
  | .mk _ _ c _ _ => c

def Elem.ownText : Elem → String
  | .mk _ _ _ s _ => s

def Elem.children : Elem → ElemL
  | .mk _ _ _ _ cs => cs

/-- BeautifulSoup `.get(name)`: the value of attribute `name`, if present. -/
def Elem.getAttr (e : Elem) (name : String) : Option String :=
  (e.attrs.find? (fun kv => kv.1 == name)).map (fun kv => kv.2)

/-- All text contained in a forest, in document order (BeautifulSoup `.text`
concatenates every string of the subtree; each element's own text is placed
before its children's). -/
def textOf : ElemL → String
  | .nil => ""
  | .cons (.mk _ _ _ s cs) es => s ++ textOf cs ++ textOf es

/-- BeautifulSoup `.text` of one element. -/
def Elem.text : Elem → String
  | .mk _ _ _ s cs => s ++ textOf cs

/-- BeautifulSoup `find_all(pred)` over a forest: every element of the forest
and recursively every descendant that satisfies the predicate, in document
(preorder) order. -/
def findAllIn (p : Elem → Bool) : ElemL → List Elem
  | .nil => []
  | .cons (.mk t a c s cs) es =>
      (if p (.mk t a c s cs) then [Elem.mk t a c s cs] else [])
        ++ findAllIn p cs ++ findAllIn p es

/-- `element.find_all(pred)`: matching strict descendants, document order. -/
def Elem.findAll (e : Elem) (p : Elem → Bool) : List Elem :=
  findAllIn p e.children

/-- `element.find(pred)`: first matching strict descendant, if any. -/
def Elem.find (e : Elem) (p : Elem → Bool) : Option Elem :=
  (e.findAll p).head?

/- ---------- Python string / number helpers ---------- -/

/-- Python `s.strip()` on a character list: leading and trailing whitespace
removed. -/
def pyStripChars (l : List Char) : List Char :=
  ((l.dropWhile Char.isWhitespace).reverse.dropWhile Char.isWhitespace).reverse

/-- Python `s.strip()`. -/
def pyStrip (s : String) : String :=
  String.mk (pyStripChars s.data)

/-- Python `pat in s` on character lists: `pat` occurs as a contiguous
subsequence. -/
def containsSub (pat : List Char) : List Char → Bool
  | [] => pat.isPrefixOf []
  | c :: rest => pat.isPrefixOf (c :: rest) || containsSub pat rest

/-- Numeric value of a list of decimal digit characters (how Python `int`
reads an all-digit string). -/
def digitsToNat (l : List Char) : Nat :=
  l.foldl (fun n c => n * 10 + (c.toNat - 48)) 0

/-- Python `int(s)` on a decimal string: surrounding whitespace stripped, an
optional single sign, then at least one digit (the rare underscore-grouping
form is not modelled); anything else raises ValueError, modelled as `none`. -/
def pyInt (s : String) : Option Int :=
  let signAndDigits : Bool × List Char :=
    match pyStripChars s.data with
    | '-' :: r => (true, r)
    | '+' :: r => (false, r)
    | l => (false, l)
  if signAndDigits.2 ≠ [] ∧ signAndDigits.2.all Char.isDigit then
    some (if signAndDigits.1 then -(digitsToNat signAndDigits.2 : Int)
          else (digitsToNat signAndDigits.2 : Int))
  else none

/-- Split a character list at every `.` (Python `s.split(".")`). -/
def splitOnDot : List Char → List (List Char)
  | [] => [[]]
  | '.' :: rest => [] :: splitOnDot rest
  | c :: rest =>
      match splitOnDot rest with
      | [] => [[c]]
      | g :: gs => (c :: g) :: gs

/-- Python `float(s)` on the plain decimal forms the scraper meets:
whitespace stripped, optional sign, digits with at most one decimal point
and at least one digit (exponent / inf / nan forms are not modelled); a
string outside this grammar raises ValueError, modelled as `none`. -/
def pyFloat (s : String) : Option Rat :=
  let signAndBody : Bool × List Char :=
    match pyStripChars s.data with
    | '-' :: r => (true, r)
    | '+' :: r => (false, r)
    | l => (false, l)
  match splitOnDot signAndBody.2 with
  | [a] =>
      if a ≠ [] ∧ a.all Char.isDigit then
        some (if signAndBody.1 then -(digitsToNat a : Rat) else (digitsToNat a : Rat))
      else none
  | [a, b] =>
      if (a ≠ [] ∨ b ≠ []) ∧ a.all Char.isDigit ∧ b.all Char.isDigit then
        some (if signAndBody.1 then
                -((digitsToNat a : Rat) + (digitsToNat b : Rat) / (10 : Rat) ^ b.length)
              else ((digitsToNat a : Rat) + (digitsToNat b : Rat) / (10 : Rat) ^ b.length))
      else none
  | _ => none

/-- Python `re.sub("[^0-9]", "", s)`: keep only the ASCII decimal digits. -/
def stripNonDigits (s : String) : String :=
  String.mk (s.data.filter Char.isDigit)

/-- Python `s.split(" ")[0]`: the text before the first space (the whole
string when there is none). -/
def firstTokenOf (s : String) : String :=
  String.mk (s.data.takeWhile (fun c => c != ' '))

/-- Python `s.replace(",", ".")` — the pattern is a single character, so a
character map suffices. -/
def commaToDot (s : String) : String :=
  String.mk (s.data.map (fun c => if c == ',' then '.' else c))

/-- Whether `re.fullmatch(".* su .* stelle", s)` succeeds: the whole string
decomposes as `a ++ " su " ++ b ++ " stelle"` with `a`, `b` free of
newlines (`.` does not match a newline). -/
def suStelleMatch (s : String) : Bool :=
  (!(s.data.contains '\n')) && (" stelle".data.isSuffixOf s.data)
    && containsSub " su ".data (s.data.take (s.data.length - 7))

/- ---------- Transport (src/asearch.py lines 14-47) ---------- -/

def MAX_PAGES : Nat := 50

def RETRY_COUNT : Nat := 3

/-- An HTTP response as the session delivers it: status code, reason phrase,
requested URL, and the response body parsed as markup. -/
structure HttpResponse : Type where
  status : Nat
  reason : String
  url : String
  body : ElemL

/-- The message of the `HTTPError` that requests' `raise_for_status` raises:
the library default, built from status, reason and URL; `none` when the
status is not 4xx/5xx. -/
def raiseForStatusMsg (r : HttpResponse) : Option String :=
  if 400 ≤ r.status ∧ r.status < 500 then
    some (toString r.status ++ " Client Error: " ++ r.reason ++ " for url: " ++ r.url)
  else if 500 ≤ r.status ∧ r.status < 600 then
    some (toString r.status ++ " Server Error: " ++ r.reason ++ " for url: " ++ r.url)
  else none

/-- The message `__response_hook` (lines 20-28) would attach on a 4xx/5xx
response: the visible text of the body markup, stripped
(`BeautifulSoup(r.text, "html.parser").text.strip()`). -/
def responseHookMsg (r : HttpResponse) : String :=
  pyStrip (textOf r.body)

/-- The response hooks installed on the module's session (line 30).
`__response_hook` is defined at lines 20-28 but never registered, so the
session's hook list is empty. -/
def sessionResponseHooks : List (HttpResponse → String) := []

/-- One attempt of `get` (lines 36-39): `session.get` returns the response
(no hook transforms it, `sessionResponseHooks` being empty), then
`response.raise_for_status()` raises the default `HTTPError` on a 4xx/5xx
status; otherwise the body is returned. -/
def getAttempt (r : HttpResponse) : Except String ElemL :=
  match raiseForStatusMsg r with
  | some m => Except.error m
  | none => Except.ok r.body

/-- The retry loop of `get` (lines 35-47): attempts run in order; the first
success is returned; when the final attempt fails its error is re-raised
(the sleeps and prints are I/O only). `i` is the current attempt index,
the second argument the number of attempts left. -/
def retryLoop (f : Nat → Except String α) : Nat → Nat → Except String α
  | i, 0 => f i
  | i, 1 => f i
  | i, n + 2 =>
      match f i with
      | Except.ok r => Except.ok r
      | Except.error _ => retryLoop f (i + 1) (n + 1)

/-- `get` (lines 32-47) against a network oracle giving the response of each
attempt: retry up to `RETRY_COUNT` times, return the first successful body,
or the last attempt's `HTTPError`. -/
def get (net : Nat → HttpResponse) : Except String ElemL :=
  retryLoop (fun i => getAttempt (net i)) 0 RETRY_COUNT

/- ---------- Extractor (src/asearch.py lines 61-124) ---------- -/

/-- `find_all("div", attrs={"data-component-type": "s-search-result"})`. -/
def isSearchResult (e : Elem) : Bool :=
  e.tag == "div" && e.getAttr "data-component-type" == some "s-search-result"

/-- `find("img", "s-image")`: an `img` whose class tokens include `s-image`. -/
def isSImage (e : Elem) : Bool :=
  e.tag == "img" && e.classTokens.contains "s-image"

def isH2 (e : Elem) : Bool :=
  e.tag == "h2"

/-- `find("span", "a-price")`. -/
def isAPrice (e : Elem) : Bool :=
  e.tag == "span" && e.classTokens.contains "a-price"

/-- `find("span", "a-offscreen")`. -/
def isAOffscreen (e : Elem) : Bool :=
  e.tag == "span" && e.classTokens.contains "a-offscreen"

/-- The rating span filter (lines 101-107): a `span` whose `aria-label` is
present and fullmatches `.* su .* stelle`. -/
def isRatingSpan (e : Elem) : Bool :=
  e.tag == "span" &&
    (match e.getAttr "aria-label" with
     | some l => suStelleMatch l
     | none => false)

/-- The review anchor filter (lines 112-114): an `a` whose `href` is present
and contains `#customerReviews`. -/
def isReviewsAnchor (e : Elem) : Bool :=
  e.tag == "a" &&
    (match e.getAttr "href" with
     | some h => containsSub "#customerReviews".data h.data
     | none => false)

/-- One scraped item, the dict initialised at lines 73-81: every field
optional, `none` standing for Python `None`.  The price is kept as the raw
inner text, exactly as line 99 stores it. -/
structure ListingRecord : Type where
  asin : Option String
  img : Option String
  description : Option String
  link : Option String
  price : Option String
  rating : Option Rat
  number_of_reviews : Option Nat
deriving DecidableEq

def site : String := "amazon.it"

/-- Lines 83-84: `asin = div.get("data-asin")`. -/
def fieldAsin (d : Elem) : Option String :=
  d.getAttr "data-asin"

/-- Lines 85-87: the `src` of the first `img.s-image`, when both exist. -/
def fieldImg (d : Elem) : Option String :=
  match d.find isSImage with
  | some t => t.getAttr "src"
  | none => none

/-- Lines 88-92: when at least one `h2` descendant exists, the stripped
texts of all of them joined with `": "`; otherwise the field stays `None`. -/
def fieldDescription (d : Elem) : Option String :=
  if (d.findAll isH2).isEmpty then none
  else some (String.intercalate ": " ((d.findAll isH2).map (fun h => pyStrip h.text)))

/-- Line 93: `f"https://{site}/dp/{asin}" if asin else None` — Python
truthiness makes both a missing and an empty identifier yield `None`. -/
def fieldLink (d : Elem) : Option String :=
  match fieldAsin d with
  | some a => if a == "" then none else some ("https://" ++ site ++ "/dp/" ++ a)
  | none => none

/-- Lines 95-99: the raw text of the first `span.a-offscreen` inside the
first `span.a-price`, when both exist. -/
def fieldPrice (d : Elem) : Option String :=
  match d.find isAPrice with
  | some p =>
      match p.find isAOffscreen with
      | some v => some v.text
      | none => none
  | none => none

/-- Line 109: the rating label's first space-separated token with its
decimal comma replaced by a point, handed to `float(...)` — `none` is the
ValueError. -/
def ratingValue (r : Elem) : Option Rat :=
  pyFloat (commaToDot (firstTokenOf ((r.getAttr "aria-label").getD "")))

/-- Lines 101-110: the rating step.  Outer `none` is the `float(...)`
ValueError escaping the step (the only step of the loop body that can
raise); `some none` means no rating span was found; `some (some v)` is a
parsed rating. -/
def fieldRating (d : Elem) : Option (Option Rat) :=
  match d.find isRatingSpan with
  | some r =>
      match ratingValue r with
      | some v => some (some v)
      | none => none
  | none => some none

/-- Lines 116-119: strip the anchor text, drop every non-digit, and parse
the remaining digits as an integer when any are left. -/
def parseReviews (t : String) : Option Nat :=
  let ds := stripNonDigits (pyStrip t)
  if ds == "" then none else some (digitsToNat ds.data)

/-- Lines 112-119: the review count from the first `#customerReviews`
anchor, when present and its text holds digits. -/
def fieldReviews (d : Elem) : Option Nat :=
  match d.find isReviewsAnchor with
  | some a => parseReviews a.text
  | none => none

/-- Lines 70-124, one iteration: build the record for one result container.
All field steps but the rating are guarded and cannot raise; when the rating
parse raises, the `except` at line 122 catches it and the record is skipped
(`none`); otherwise the record is appended. -/
def extractRecord (d : Elem) : Option ListingRecord :=
  (fieldRating d).map (fun rv =>
    { asin := fieldAsin d
      img := fieldImg d
      description := fieldDescription d
      link := fieldLink d
      price := fieldPrice d
      rating := rv
      number_of_reviews := fieldReviews d })

/-- `get_results` on an already-fetched page body (lines 62-124): collect
the result containers; a page with none yields `[]`; each container yields
its record unless its extraction raised. -/
def get_results (page : ElemL) : List ListingRecord :=
  ((findAllIn isSearchResult page).map extractRecord).filterMap id

/-- Lines 143-147 (display layer): the cleaning applied to one raw price
text before conversion — strip the euro sign, drop every `.` thousands
separator, turn the decimal comma into a point (each replaced pattern is a
single character). -/
def pandasPriceClean (s : String) : String :=
  String.mk (((s.data.filter (fun c => c != '€')).filter (fun c => c != '.')).map
    (fun c => if c == ',' then '.' else c))

/-- Lines 143-148 (display layer): numeric value of one cleaned price text
(`astype(float, ...)` on the cleaned column). -/
def priceValue (s : String) : Option Rat :=
  pyFloat (pandasPriceClean s)

/- ---------- Pager (src/asearch.py lines 54-59) ---------- -/

/-- `find_all("span", "s-pagination-item")`. -/
def isPageItemSpan (e : Elem) : Bool :=
  e.tag == "span" && e.classTokens.contains "s-pagination-item"

/-- Lines 54-59: page-count discovery from the first page's markup.  With no
indicator spans the count is 1; otherwise the last span's text goes through
`int(...)` — `none` is the ValueError aborting `search` — and any value
above `MAX_PAGES` is clamped down to it (there is no lower clamp). -/
def discoverPages (page1 : ElemL) : Option Int :=
  match (findAllIn isPageItemSpan page1).getLast? with
  | none => some 1
  | some e =>
      (pyInt e.text).map (fun p =>
        if p > (MAX_PAGES : Int) then (MAX_PAGES : Int) else p)

/- ---------- Aggregator / Scheduler (src/asearch.py lines 49-130) ---------- -/

/-- The list comprehension over `t.map(get_results, range(1, pages + 1))`
(lines 126-129): results are retrieved in page order and the first page
whose task raised re-raises there, aborting the whole comprehension. -/
def mapExcept (f : Nat → Except String α) : List Nat → Except String (List α)
  | [] => Except.ok []
  | p :: ps =>
      match f p with
      | Except.error e => Except.error e
      | Except.ok d =>
          match mapExcept f ps with
          | Except.error e => Except.error e
          | Except.ok ds => Except.ok (d :: ds)

/-- Line 56's `int(...)` as it sits inside `search`: a ValueError is not
caught anywhere, so a non-numeric indicator aborts the whole query. -/
def pagesOrError (o : Option Int) : Except String Int :=
  match o with
  | none => Except.error "ValueError: invalid literal for int() with base 10"
  | some p => Except.ok p

/-- `search` (lines 49-130) against network oracles.  `net0 attempt` answers
the initial paramless fetch of line 54; `net page attempt` answers the
per-page fetch of line 62.  Page-count discovery runs first (its ValueError
aborts the query); then one fetch+extract task per page in `1..pages` runs,
and the flattened records are returned — unless any page's fetch failed
after its retries, which re-raises. -/
def search (net0 : Nat → HttpResponse) (net : Nat → Nat → HttpResponse) :
    Except String (List ListingRecord) :=
  (get net0).bind (fun first =>
    (pagesOrError (discoverPages first)).bind (fun pages =>
      (mapExcept (fun p => (get (net p)).map get_results)
        (List.range' 1 pages.toNat)).map List.flatten))

/- ---------- Concrete fixtures ---------- -/

/-- A well-formed result container: identifier `B001`, one heading. -/
def sampleDiv : Elem :=
  Elem.mk "div" [("data-component-type", "s-search-result"), ("data-asin", "B001")] [] ""
    (elems [Elem.mk "h2" [] [] "Cuffie Modello Uno" ElemL.nil])

/-- The record `sampleDiv` extracts to. -/
def sampleRecord : ListingRecord :=
  { asin := some "B001"
    img := none
    description := some "Cuffie Modello Uno"
    link := some "https://amazon.it/dp/B001"
    price := none
    rating := none
    number_of_reviews := none }

/-- A first page whose last pagination indicator reads `2`. -/
def twoPagesDoc : ElemL :=
  elems [Elem.mk "span" [] ["s-pagination-item"] "1" ElemL.nil,
    Elem.mk "span" [] ["s-pagination-item"] "2" ElemL.nil]

def okResp (u : String) (body : ElemL) : HttpResponse :=
  { status := 200, reason := "OK", url := u, body := body }

/-- A throttling response: status 503 with a short HTML interstitial. -/
def robotResp : HttpResponse :=
  { status := 503
    reason := "Service Unavailable"
    url := "https://amazon.it/s?k=cuffie"
    body := elems [Elem.mk "html" [] [] ""
      (elems [Elem.mk "body" [] [] "Robot Check" ElemL.nil])] }

/-- Initial fetch for the two-page query: succeeds on the first attempt. -/
def c1net0 : Nat → HttpResponse := fun _ =>
  okResp "https://amazon.it/s?k=cuffie" twoPagesDoc

/-- Per-page fetches: page 1 succeeds with one container; page 2 answers 503
on every attempt, so its retries are exhausted. -/
def c1net : Nat → Nat → HttpResponse := fun p _ =>
  if p == 2 then robotResp
  else okResp "https://amazon.it/s?k=cuffie" (elems [sampleDiv])

/-- A container whose rating label matches the pattern but whose leading
token is not a number. -/
def badRatingDiv : Elem :=
  Elem.mk "div" [("data-component-type", "s-search-result"), ("data-asin", "B002")] [] ""
    (elems [Elem.mk "h2" [] [] "Cuffie Modello Due" ElemL.nil,
      Elem.mk "span" [("aria-label", "abc su 5 stelle")] [] "" ElemL.nil])

/-- An offscreen price marker reading `€1.234,56`. -/
def euroOffscreenSpan : Elem :=
  Elem.mk "span" [] ["a-offscreen"] "€1.234,56" ElemL.nil

/-- A price container holding `euroOffscreenSpan`. -/
def euroPriceSpan : Elem :=
  Elem.mk "span" [] ["a-price"] "" (elems [euroOffscreenSpan])

/-- A container whose price marker's inner text is `€1.234,56`. -/
def euroPriceDiv : Elem :=
  Elem.mk "div" [("data-component-type", "s-search-result"), ("data-asin", "B003")] [] ""
    (elems [euroPriceSpan])

/-- The record `euroPriceDiv` extracts to. -/
def euroRecord : ListingRecord :=
  { asin := some "B003"
    img := none
    description := none
    link := some "https://amazon.it/dp/B003"
    price := some "€1.234,56"
    rating := none
    number_of_reviews := none }

/-- A first page whose only pagination indicator reads `0`. -/
def pageZeroDoc : ElemL :=
  elems [Elem.mk "span" [] ["s-pagination-item"] "0" ElemL.nil]

/-- The span element ending `page120Doc`. -/
def span120 : Elem :=
  Elem.mk "span" [] ["s-pagination-item"] "120" ElemL.nil

/-- A first page whose last pagination indicator reads `120`. -/
def page120Doc : ElemL :=
  elems [Elem.mk "span" [] ["s-pagination-item"] "1" ElemL.nil, span120]

/-- Every attempt of the transport answers the 503 interstitial. -/
def robotNet : Nat → HttpResponse := fun _ => robotResp

/-- A container with no heading sub-element. -/
def noH2Div : Elem :=
  Elem.mk "div" [("data-component-type", "s-search-result"), ("data-asin", "B004")] [] ""
    (elems [Elem.mk "span" [] [] "no heading here" ElemL.nil])

/-- A container with two headings. -/
def twoH2Div : Elem :=
  Elem.mk "div" [("data-component-type", "s-search-result"), ("data-asin", "B005")] [] ""
    (elems [Elem.mk "h2" [] [] " Cuffie " ElemL.nil, Elem.mk "h2" [] [] "Nere" ElemL.nil])

/-- A container with a customer-reviews anchor reading `(1.234)`. -/
def reviewsDiv : Elem :=
  Elem.mk "div" [("data-component-type", "s-search-result"), ("data-asin", "B006")] [] ""
    (elems [Elem.mk "a" [("href", "/dp/B006#customerReviews")] [] "(1.234)" ElemL.nil])

/-- A container with no price sub-element but every other field present. -/
def noPriceDiv : Elem :=
  Elem.mk "div" [("data-component-type", "s-search-result"), ("data-asin", "B007")] [] ""
    (elems [Elem.mk "img" [("src", "https://img.example/b007.jpg")] ["s-image"] "" ElemL.nil,
      Elem.mk "h2" [] [] "Cuffie Sette" ElemL.nil,
      Elem.mk "span" [("aria-label", "4,3 su 5 stelle")] [] "" ElemL.nil,
      Elem.mk "a" [("href", "/dp/B007#customerReviews")] [] "(321)" ElemL.nil])

/-- A first page whose last pagination indicator is a non-numeric label. -/
def ellipsisPageDoc : ElemL :=
  elems [Elem.mk "span" [] ["s-pagination-item"] "1" ElemL.nil,
    Elem.mk "span" [] ["s-pagination-item"] "Avanti" ElemL.nil]

def ellipsisNet0 : Nat → HttpResponse := fun _ =>
  okResp "https://amazon.it/s?k=cuffie" ellipsisPageDoc

def emptyNet : Nat → Nat → HttpResponse := fun _ _ =>
  okResp "https://amazon.it/s?k=cuffie" ElemL.nil

/-- The `HTTPError` message the transport raises once `robotResp` has
exhausted its retries. -/
def msg503 : String :=
  "503 Server Error: Service Unavailable for url: https://amazon.it/s?k=cuffie"

/-- The record `twoH2Div` extracts to. -/
def twoH2Record : ListingRecord :=
  { asin := some "B005"
    img := none
    description := some "Cuffie: Nere"
    link := some "https://amazon.it/dp/B005"
    price := none
    rating := none
    number_of_reviews := none }

/-- The record `reviewsDiv` extracts to. -/
def reviewsRecord : ListingRecord :=
  { asin := some "B006"
    img := none
    description := none
    link := some "https://amazon.it/dp/B006"
    price := none
    rating := none
    number_of_reviews := some 1234 }

/-- The record `noPriceDiv` extracts to; its rating is the parsed value of
the label token `4,3`. -/
def noPriceRecord : ListingRecord :=
  { asin := some "B007"
    img := some "https://img.example/b007.jpg"
    description := some "Cuffie Sette"
    link := some "https://amazon.it/dp/B007"
    price := none
    rating := pyFloat "4.3"
    number_of_reviews := some 321 }

/- ---------- Helper lemmas ---------- -/

theorem except_bind_ok (a : α) (f : α → Except String β) :
    (Except.ok a : Except String α).bind f = f a := rfl

theorem except_bind_error (e : String) (f : α → Except String β) :
    (Except.error e : Except String α).bind f = Except.error e := rfl

theorem except_map_ok (g : α → β) (a : α) :
    (Except.ok a : Except String α).map g = Except.ok (g a) := rfl

theorem except_map_error (g : α → β) (e : String) :
    (Except.error e : Except String α).map g = Except.error e := rfl

/-- When some element of the list makes `f` fail, the in-order collection
fails (with the first such error). -/
theorem mapExcept_error_of_mem {f : Nat → Except String α} {l : List Nat}
    {x : Nat} {e : String} (hx : x ∈ l) (hf : f x = Except.error e) :
    ∃ m, mapExcept f l = Except.error m := by
  induction l with
  | nil => cases hx
  | cons a t ih =>
    cases hx with
    | head => exact ⟨e, by simp [mapExcept, hf]⟩
    | tail _ hmem =>
      cases ha : f a with
      | error e2 => exact ⟨e2, by simp [mapExcept, ha]⟩
      | ok v =>
        obtain ⟨m, hm⟩ := ih hmem
        exact ⟨m, by simp [mapExcept, ha, hm]⟩

/-- Splitting a successful extraction into its per-field values: the rating
step did not raise, and every field of the record is its field function's
value on the container. -/
theorem extractRecord_eq_some {d : Elem} {r : ListingRecord}
    (h : extractRecord d = some r) :
    fieldRating d = some r.rating ∧
    r = { asin := fieldAsin d
          img := fieldImg d
          description := fieldDescription d
          link := fieldLink d
          price := fieldPrice d
          rating := r.rating
          number_of_reviews := fieldReviews d } := by
  unfold extractRecord at h
  cases hrv : fieldRating d with
  | none => rw [hrv] at h; cases h
  | some rv =>
    rw [hrv, Option.map_some'] at h
    cases h
    exact ⟨rfl, rfl⟩

/- ---------- Claim theorems ---------- -/

/-- C1 counterexample: with two pages where page 1 succeeds (one record) and
page 2's fetch fails on every attempt, `search` returns the page-2 fetch
error — not the union of the successful pages' records. -/
theorem page_fetch_failure_cex :
    get_results (elems [sampleDiv]) = [sampleRecord] ∧
    get (c1net 2) = Except.error msg503 ∧
    search c1net0 c1net = Except.error msg503 ∧
    search c1net0 c1net ≠ Except.ok [sampleRecord] := by
  refine ⟨rfl, rfl, rfl, ?_⟩
  intro h
  rw [show search c1net0 c1net = Except.error msg503 from rfl] at h
  exact Except.noConfusion h

/-- C1 (amended): when any page's fetch in `1..pages` fails after the
transport's retries are exhausted, `search` raises that failure and the
whole query aborts; no partial result set is returned. -/
theorem page_fetch_failure_aborts_search
    (net0 : Nat → HttpResponse) (net : Nat → Nat → HttpResponse)
    (first : ElemL) (pages : Int) (k : Nat) (e : String)
    (h0 : get net0 = Except.ok first)
    (h1 : discoverPages first = some pages)
    (hk1 : 1 ≤ k) (hk2 : k ≤ pages.toNat)
    (hf : get (net k) = Except.error e) :
    ∃ m, search net0 net = Except.error m := by
  have hmem : k ∈ List.range' 1 pages.toNat := by
    rw [List.mem_range']
    exact ⟨k - 1, by omega, by omega⟩
  have herr : (get (net k)).map get_results = Except.error e := by
    rw [hf]; rfl
  obtain ⟨m, hm⟩ :=
    mapExcept_error_of_mem (f := fun p => (get (net p)).map get_results) hmem herr
  refine ⟨m, ?_⟩
  simp only [search, h0, except_bind_ok, h1, pagesOrError, hm, except_map_error]

/-- C1 witness: the amended theorem applied to the concrete two-page query
whose second page fails. -/
theorem page_fetch_failure_aborts_search_witness :
    ∃ m, search c1net0 c1net = Except.error m :=
  page_fetch_failure_aborts_search c1net0 c1net twoPagesDoc 2 2 msg503
    rfl rfl (by decide) (by decide) rfl

/-- C2 counterexample: a container whose rating label matches the pattern
while its leading token is not a number does not yield a record with only
the rating absent — the whole record is skipped. -/
theorem unparsable_rating_skips_record_cex :
    isRatingSpan (Elem.mk "span" [("aria-label", "abc su 5 stelle")] [] "" ElemL.nil) = true ∧
    extractRecord badRatingDiv = none ∧
    get_results (elems [badRatingDiv]) = [] :=
  ⟨rfl, rfl, rfl⟩

/-- C2 (amended): a missing sub-element only leaves its field absent, but an
unparsable rating label aborts the record: extraction skips a container's
record exactly when a rating span is found and its label's leading token
fails float parsing; every other fault leaves the record emitted. -/
theorem record_skipped_iff_rating_unparsable (d : Elem) :
    extractRecord d = none ↔
      ∃ r, d.find isRatingSpan = some r ∧ ratingValue r = none := by
  unfold extractRecord fieldRating
  cases h : d.find isRatingSpan with
  | none => simp
  | some r =>
    cases hp : ratingValue r with
    | none => simp [hp]
    | some v => simp [hp]

/-- C3 counterexample: for the container whose price marker reads
`€1.234,56`, the extractor's record carries the raw marker text, not the
numeric value (the stored text is not even parsable as a number). -/
theorem extractor_price_raw_cex :
    extractRecord euroPriceDiv = some euroRecord ∧
    euroRecord.price = some "€1.234,56" ∧
    pyFloat "€1.234,56" = none :=
  ⟨rfl, rfl, rfl⟩

/-- C3 (amended): a record extracted from a container whose price marker's
inner text is `€1.234,56` carries that raw text in its price field; the
numeric value 1234.56 arises only downstream, when the display layer cleans
the price column (strip `€`, drop `.`, turn `,` into `.`) and converts it. -/
theorem price_raw_in_record_cleaned_downstream
    (d p v : Elem) (r : ListingRecord)
    (hp : d.find isAPrice = some p) (hv : p.find isAOffscreen = some v)
    (ht : v.text = "€1.234,56") (hr : extractRecord d = some r) :
    r.price = some "€1.234,56" ∧
    priceValue "€1.234,56" = some (30864 / 25 : Rat) := by
  obtain ⟨-, hrec⟩ := extractRecord_eq_some hr
  constructor
  · rw [hrec]
    show fieldPrice d = some "€1.234,56"
    simp [fieldPrice, hp, hv, ht]
  · have h1 : priceValue "€1.234,56" =
        some ((digitsToNat ['1', '2', '3', '4'] : Rat)
          + (digitsToNat ['5', '6'] : Rat) / (10 : Rat) ^ (['5', '6'] : List Char).length) := rfl
    have d1 : digitsToNat ['1', '2', '3', '4'] = 1234 := rfl
    have d2 : digitsToNat ['5', '6'] = 56 := rfl
    rw [h1, d1, d2]
    norm_num

/-- C3 witness: the amended theorem applied to the concrete container. -/
theorem price_raw_in_record_witness :
    euroRecord.price = some "€1.234,56" ∧
    priceValue "€1.234,56" = some (30864 / 25 : Rat) :=
  price_raw_in_record_cleaned_downstream euroPriceDiv euroPriceSpan
    euroOffscreenSpan euroRecord rfl rfl rfl rfl

/-- C4 counterexample: a first page whose only pagination indicator reads
`0` gives a discovered page count of 0, outside `[1, 50]` — the code clamps
only from above. -/
theorem page_count_zero_cex :
    discoverPages pageZeroDoc = some 0 ∧ ¬ (1 ≤ (0 : Int)) :=
  ⟨rfl, by decide⟩

/-- C4 (amended): with no pagination indicators the discovered count is
exactly 1; when the last indicator's text parses to an integer `p ≥ 1` the
count is `min p 50`, which lies in `[1, 50]`; a parsed value below 1 passes
through unclamped (and non-numeric text raises instead). -/
theorem discover_pages_spec (doc : ElemL) :
    (findAllIn isPageItemSpan doc = [] → discoverPages doc = some 1) ∧
    (∀ e p, (findAllIn isPageItemSpan doc).getLast? = some e →
      pyInt e.text = some p → 1 ≤ p →
      discoverPages doc = some (min p (MAX_PAGES : Int)) ∧
      1 ≤ min p (MAX_PAGES : Int) ∧ min p (MAX_PAGES : Int) ≤ (MAX_PAGES : Int)) := by
  constructor
  · intro h
    simp [discoverPages, h]
  · intro e p hl hp h1
    refine ⟨?_, le_min h1 (by norm_num [MAX_PAGES]), min_le_right _ _⟩
    simp only [discoverPages, hl, hp, Option.map_some']
    congr 1
    rcases le_or_lt p (MAX_PAGES : Int) with hle | hgt
    · rw [if_neg (not_lt.mpr hle), min_eq_left hle]
    · rw [if_pos hgt, min_eq_right (le_of_lt hgt)]

/-- C4 witness: the amended theorem applied to an empty first page and to a
first page reporting 120 pages. -/
theorem discover_pages_spec_witness :
    discoverPages ElemL.nil = some 1 ∧
    discoverPages page120Doc = some (min (120 : Int) (MAX_PAGES : Int)) :=
  ⟨(discover_pages_spec ElemL.nil).1 rfl,
    ((discover_pages_spec page120Doc).2 span120 120 rfl rfl (by decide)).1⟩

/-- C5: the transport's ultimate error on a persistent 503 whose body is an
HTML interstitial carries requests' default status-line message, not the
page's extracted visible text — `__response_hook`, which would extract it,
is defined but never registered on the session, whose hook list is empty. -/
theorem transport_error_uses_default_message :
    get robotNet = Except.error msg503 ∧
    responseHookMsg robotResp = "Robot Check" ∧
    sessionResponseHooks = [] ∧
    msg503 ≠ responseHookMsg robotResp := by
  refine ⟨rfl, rfl, rfl, ?_⟩
  decide

/-- C6 counterexample: a container with no heading sub-element yields a
record whose description is absent (`None`), not the empty string. -/
theorem no_heading_gives_none_cex :
    (extractRecord noH2Div).map (fun r => r.description) = some none ∧
    (some (none : Option String)) ≠ some (some "") :=
  ⟨rfl, by decide⟩

/-- C6 (amended): a record's description is the stripped texts of all `h2`
sub-elements joined with `": "` when at least one exists, and is absent
(`None`) — not the empty string — when the container has none. -/
theorem description_join_or_absent (d : Elem) (r : ListingRecord)
    (h : extractRecord d = some r) :
    r.description = (if (d.findAll isH2).isEmpty then none
      else some (String.intercalate ": " ((d.findAll isH2).map (fun h2 => pyStrip h2.text)))) := by
  obtain ⟨-, hrec⟩ := extractRecord_eq_some h
  rw [hrec]
  rfl

/-- C6 witness: the amended theorem applied to a container with two
headings. -/
theorem description_join_or_absent_witness :
    twoH2Record.description = (if (twoH2Div.findAll isH2).isEmpty then none
      else some (String.intercalate ": "
        ((twoH2Div.findAll isH2).map (fun h2 => pyStrip h2.text)))) :=
  description_join_or_absent twoH2Div twoH2Record rfl

/-- C7: a record's review count comes from the first customer-reviews
anchor with every non-digit stripped before integer parsing; `(1.234)`
parses to 1234 and digit-free text leaves the field absent, not zero. -/
theorem review_count_parsing (d : Elem) (r : ListingRecord)
    (h : extractRecord d = some r) :
    r.number_of_reviews = fieldReviews d ∧
    parseReviews "(1.234)" = some 1234 ∧
    parseReviews "Recensioni" = none := by
  obtain ⟨-, hrec⟩ := extractRecord_eq_some h
  exact ⟨by rw [hrec], rfl, rfl⟩

/-- C7 witness: the theorem applied to the concrete container whose anchor
reads `(1.234)`. -/
theorem review_count_parsing_witness :
    reviewsRecord.number_of_reviews = fieldReviews reviewsDiv ∧
    parseReviews "(1.234)" = some 1234 ∧
    parseReviews "Recensioni" = none :=
  review_count_parsing reviewsDiv reviewsRecord rfl

/-- C8: when a container has no price sub-element the extracted record's
price field is absent, and every other field equals exactly its own field
function's value on that same container — the missing price affects nothing
else. -/
theorem missing_price_frame (d : Elem) (r : ListingRecord)
    (hp : d.find isAPrice = none) (h : extractRecord d = some r) :
    r.price = none ∧ r.asin = fieldAsin d ∧ r.img = fieldImg d ∧
    r.description = fieldDescription d ∧ r.link = fieldLink d ∧
    fieldRating d = some r.rating ∧ r.number_of_reviews = fieldReviews d := by
  obtain ⟨hrat, hrec⟩ := extractRecord_eq_some h
  refine ⟨?_, by rw [hrec], by rw [hrec], by rw [hrec], by rw [hrec], hrat, by rw [hrec]⟩
  rw [hrec]
  show fieldPrice d = none
  simp [fieldPrice, hp]

/-- C8 witness: the theorem applied to the concrete priceless container
whose every other field is populated. -/
theorem missing_price_frame_witness :
    noPriceRecord.price = none ∧ noPriceRecord.asin = fieldAsin noPriceDiv ∧
    noPriceRecord.img = fieldImg noPriceDiv ∧
    noPriceRecord.description = fieldDescription noPriceDiv ∧
    noPriceRecord.link = fieldLink noPriceDiv ∧
    fieldRating noPriceDiv = some noPriceRecord.rating ∧
    noPriceRecord.number_of_reviews = fieldReviews noPriceDiv :=
  missing_price_frame noPriceDiv noPriceRecord rfl rfl

/-- C9: per-page extraction is a pure function of the markup document — two
runs on the identical document yield identical record sequences, order
included. -/
theorem extraction_deterministic (page : ElemL) :
    get_results page = get_results page := rfl

/-- C10: a first page whose last pagination indicator is a non-numeric
label makes `int(...)` raise: page-count discovery yields no count and the
whole query fails with the uncaught ValueError. -/
theorem nonnumeric_page_label_fails_query :
    discoverPages ellipsisPageDoc = none ∧
    search ellipsisNet0 emptyNet =
      Except.error "ValueError: invalid literal for int() with base 10" :=
  ⟨rfl, rfl⟩

end ASearch
